import Mathlib

/-!
Shallow embedding of the oracle-observer-sample conversion pipeline
(src/oracle-ingestor-lambda-parquet/src/handler.rs), with theorems checking
the natural-language specification against it.

Rust machine integers are modelled as Nat (unsigned) and Int (signed), with
`as` casts made explicit.  Fallible code returns `Except Failure`, where a
Rust panic (Option::unwrap on None, Vec index out of bounds) is kept distinct
from a typed error propagated with the `?` operator.
-/

namespace OracleObserver

/-- Failure of a processing step.  `panicked` models a Rust panic
(`Option::unwrap` on `None`, slice index out of bounds); `typed` models an
error value returned to the caller through the `?` operator. -/
inductive Failure where
  | panicked (msg : String)
  | typed (msg : String)
deriving DecidableEq, Repr

/-- Equality of Except values is decidable when both components are, letting
concrete runs of the embedded handler be checked by evaluation. -/
instance {ε α : Type} [DecidableEq ε] [DecidableEq α] : DecidableEq (Except ε α)
  | Except.error e, Except.error f =>
    if h : e = f then isTrue (by rw [h]) else isFalse (fun hc => h (Except.error.inj hc))
  | Except.error _, Except.ok _ => isFalse (fun hc => Except.noConfusion hc)
  | Except.ok _, Except.error _ => isFalse (fun hc => Except.noConfusion hc)
  | Except.ok x, Except.ok y =>
    if h : x = y then isTrue (by rw [h]) else isFalse (fun hc => h (Except.ok.inj hc))

/-- Rust str::split with the char pattern dot, over the character list:
tokens leftmost first, the empty string giving one empty token, a trailing
dot a trailing empty token. -/
def splitDotChars : List Char → List (List Char)
  | [] => [[]]
  | c :: rest =>
    if c = '.' then [] :: splitDotChars rest
    else
      match splitDotChars rest with
      | [] => [[c]]
      | t :: ts => (c :: t) :: ts

/-- Rust `key.split at dot, collected`: the dot-delimited tokens of a key. -/
def splitDot (s : String) : List String :=
  (splitDotChars s.toList).map List.asString

/-- Rust `u64 as i64`: two's-complement reinterpretation of a 64-bit value. -/
def u64ToI64 (n : Nat) : Int :=
  if n < 2 ^ 63 then (n : Int) else (n : Int) - 2 ^ 64

/-- Rust `u32 as i32`: two's-complement reinterpretation of a 32-bit value. -/
def u32ToI32 (n : Nat) : Int :=
  if n < 2 ^ 31 then (n : Int) else (n : Int) - 2 ^ 32

/-- Decimal digit accumulation over a character list: `some` of the value when
every character is an ASCII digit, `none` otherwise. -/
def decDigits (cs : List Char) : Option Nat :=
  cs.foldl
    (fun acc c =>
      match acc with
      | none => none
      | some n => if c.isDigit then some (n * 10 + (c.toNat - 48)) else none)
    (some 0)

/-- Rust `str::parse::<i64>`: an optional leading sign followed by one or more
decimal digits, rejected on any other character, on the empty digit string and
on 64-bit signed overflow. -/
def parseI64 (s : String) : Option Int :=
  let cs := s.toList
  let signDigits : Int × List Char :=
    match cs with
    | '-' :: rest => (-1, rest)
    | '+' :: rest => (1, rest)
    | _ => (1, cs)
  match signDigits.2 with
  | [] => none
  | _ =>
    match decDigits signDigits.2 with
    | none => none
    | some n =>
      let v : Int := signDigits.1 * (n : Int)
      if -(2 ^ 63) ≤ v ∧ v ≤ 2 ^ 63 - 1 then some v else none

/-- helium_proto poc_lora LoraBeaconReportReqV1, restricted to the fields the
handler reads.  `pub_key` is a byte vector. -/
structure LoraBeaconReportReqV1 where
  pub_key : List Nat
  frequency : Nat
  channel : Int
  tx_power : Int
  timestamp : Nat
  tmst : Nat
deriving DecidableEq, Repr

/-- helium_proto poc_lora LoraValidBeaconReportV1: the nested report is an
optional proto message. -/
structure LoraValidBeaconReportV1 where
  received_timestamp : Nat
  location : String
  report : Option LoraBeaconReportReqV1
deriving DecidableEq, Repr

/-- helium_proto poc_lora LoraWitnessReportReqV1, restricted to the fields the
handler reads. -/
structure LoraWitnessReportReqV1 where
  pub_key : List Nat
  timestamp : Nat
  tmst : Nat
  signal : Int
  snr : Int
  frequency : Nat
deriving DecidableEq, Repr

/-- helium_proto poc_lora LoraVerifiedWitnessReportV1: the nested report is an
optional proto message. -/
structure LoraVerifiedWitnessReportV1 where
  received_timestamp : Nat
  location : String
  report : Option LoraWitnessReportReqV1
deriving DecidableEq, Repr

/-- helium_proto poc_lora LoraPocV1, the decoded ProofOfCoverageRecord. -/
structure LoraPocV1 where
  poc_id : List Nat
  beacon_report : Option LoraValidBeaconReportV1
  selected_witnesses : List LoraVerifiedWitnessReportV1
  unselected_witnesses : List LoraVerifiedWitnessReportV1
deriving DecidableEq, Repr

/-- One row of the beacon output batch: the values pushed onto the nine beacon
column vectors for one record (handler.rs lines 318-328). -/
structure BeaconRow where
  poc_id : List Nat
  ingest_time : Int
  beacon_location : Int
  pub_key : List Nat
  frequency : Int
  channel : Int
  tx_power : Int
  timestamp : Int
  tmst : Int
deriving DecidableEq, Repr

/-- One row of the witness output batch: the values pushed onto the ten witness
column vectors for one witness (handler.rs lines 329-352). -/
structure WitnessRow where
  poc_id : List Nat
  pub_key : List Nat
  ingest_time : Int
  witness_location : Int
  timestamp : Int
  tmst : Int
  signal : Int
  snr : Int
  frequency : Int
  selected : Bool
deriving DecidableEq, Repr

/-- The body of one iteration of the per-witness loops in write_parquet:
`witness.report.clone().unwrap()` panics when the nested report is absent;
`witness.location.parse::<i64>().unwrap_or(0)` defaults a failed parse to 0. -/
def witnessRow (pid : List Nat) (flag : Bool) (w : LoraVerifiedWitnessReportV1) :
    Except Failure WitnessRow :=
  match w.report with
  | none => Except.error (Failure.panicked ("called Option::unwrap on a None value"))
  | some rep =>
    Except.ok
      { poc_id := pid
        pub_key := rep.pub_key
        ingest_time := u64ToI64 w.received_timestamp
        witness_location := (parseI64 w.location).getD 0
        timestamp := u64ToI64 rep.timestamp
        tmst := u32ToI32 rep.tmst
        signal := rep.signal
        snr := rep.snr
        frequency := u64ToI64 rep.frequency
        selected := flag }

/-- The whole per-witness loop, in source order over one witness list. -/
def witnessRows (pid : List Nat) (flag : Bool) :
    List LoraVerifiedWitnessReportV1 → Except Failure (List WitnessRow)
  | [] => Except.ok []
  | w :: rest =>
    match witnessRow pid flag w with
    | Except.error e => Except.error e
    | Except.ok r =>
      match witnessRows pid flag rest with
      | Except.error e => Except.error e
      | Except.ok rs => Except.ok (r :: rs)

/-- The loop body of write_parquet for one decoded record (handler.rs lines
315-352).  An empty selected-witness list skips the record (`continue`);
otherwise the beacon pushes run in source order: `beacon_report.unwrap()`
(panic when absent), `location.parse::<i64>()?` (typed error), the nested
`report.unwrap()` (panic when absent), then the selected and unselected
witness loops. -/
def processRecord (poc : LoraPocV1) :
    Except Failure (Option (BeaconRow × List WitnessRow)) :=
  if poc.selected_witnesses.isEmpty then Except.ok none
  else
    match poc.beacon_report with
    | none => Except.error (Failure.panicked ("called Option::unwrap on a None value"))
    | some br =>
      match parseI64 br.location with
      | none => Except.error (Failure.typed ("invalid digit found in string"))
      | some loc =>
        match br.report with
        | none => Except.error (Failure.panicked ("called Option::unwrap on a None value"))
        | some rep =>
          match witnessRows poc.poc_id true poc.selected_witnesses with
          | Except.error e => Except.error e
          | Except.ok selRows =>
            match witnessRows poc.poc_id false poc.unselected_witnesses with
            | Except.error e => Except.error e
            | Except.ok unselRows =>
              Except.ok (some
                ({ poc_id := poc.poc_id
                   ingest_time := u64ToI64 br.received_timestamp
                   beacon_location := loc
                   pub_key := rep.pub_key
                   frequency := u64ToI64 rep.frequency
                   channel := rep.channel
                   tx_power := rep.tx_power
                   timestamp := u64ToI64 rep.timestamp
                   tmst := u32ToI32 rep.tmst }, selRows ++ unselRows))

/-- The message loop of write_parquet (handler.rs lines 312-353) over the
stream of per-message decode results: the first failed result or failed record
aborts the whole file; otherwise each record's rows are appended in stream
order to the beacon and witness batches. -/
def buildBatches :
    List (Except Failure LoraPocV1) → Except Failure (List BeaconRow × List WitnessRow)
  | [] => Except.ok ([], [])
  | Except.error e :: _ => Except.error e
  | Except.ok poc :: rest =>
    match processRecord poc with
    | Except.error e => Except.error e
    | Except.ok none => buildBatches rest
    | Except.ok (some (b, ws)) =>
      match buildBatches rest with
      | Except.error e => Except.error e
      | Except.ok (bs, wss) => Except.ok (b :: bs, ws ++ wss)

/-- A serialized column: the typed value vector handed to one call of
`write_batch`.  `unmatched` is the fall-through arm of the dispatch match,
which writes nothing and only logs a warning. -/
inductive ColumnData where
  | bytes (vals : List (List Nat))
  | i64 (vals : List Int)
  | i32 (vals : List Int)
  | boolean (vals : List Bool)
  | unmatched
deriving DecidableEq, Repr

/-- Declared field order of the beacon output schema (the BEACON_MSG_TYPE
constant, handler.rs lines 27-38). -/
def beaconSchemaFields : List String :=
  ["poc_id", "ingest_time", "beacon_location", "pub_key", "frequency",
   "channel", "tx_power", "timestamp", "tmst"]

/-- Declared field order of the witness output schema (the WITNESS_MSG_TYPE
constant, handler.rs lines 40-52). -/
def witnessSchemaFields : List String :=
  ["poc_id", "pub_key", "ingest_time", "witness_location", "timestamp",
   "tmst", "signal", "snr", "frequency", "selected"]

/-- The dispatch match of the beacon column loop (handler.rs lines 355-420):
given the 1-based running column counter, the value vector written to that
column. -/
def beaconColumnFor (rows : List BeaconRow) : Nat → ColumnData
  | 1 => ColumnData.bytes (rows.map BeaconRow.poc_id)
  | 2 => ColumnData.i64 (rows.map BeaconRow.ingest_time)
  | 3 => ColumnData.i64 (rows.map BeaconRow.beacon_location)
  | 4 => ColumnData.bytes (rows.map BeaconRow.pub_key)
  | 5 => ColumnData.i64 (rows.map BeaconRow.frequency)
  | 6 => ColumnData.i32 (rows.map BeaconRow.channel)
  | 7 => ColumnData.i32 (rows.map BeaconRow.tx_power)
  | 8 => ColumnData.i64 (rows.map BeaconRow.timestamp)
  | 9 => ColumnData.i32 (rows.map BeaconRow.tmst)
  | _ => ColumnData.unmatched

/-- The dispatch match of the witness column loop (handler.rs lines 425-501). -/
def witnessColumnFor (rows : List WitnessRow) : Nat → ColumnData
  | 1 => ColumnData.bytes (rows.map WitnessRow.poc_id)
  | 2 => ColumnData.bytes (rows.map WitnessRow.pub_key)
  | 3 => ColumnData.i64 (rows.map WitnessRow.ingest_time)
  | 4 => ColumnData.i64 (rows.map WitnessRow.witness_location)
  | 5 => ColumnData.i64 (rows.map WitnessRow.timestamp)
  | 6 => ColumnData.i32 (rows.map WitnessRow.tmst)
  | 7 => ColumnData.i32 (rows.map WitnessRow.signal)
  | 8 => ColumnData.i32 (rows.map WitnessRow.snr)
  | 9 => ColumnData.i64 (rows.map WitnessRow.frequency)
  | 10 => ColumnData.boolean (rows.map WitnessRow.selected)
  | _ => ColumnData.unmatched

/-- The beacon column-writing loop: `next_column` yields one column writer per
declared schema field, in declaration order, so the loop runs the dispatch
match at counter values 1 .. 9. -/
def beaconColumns (rows : List BeaconRow) : List ColumnData :=
  (List.range beaconSchemaFields.length).map (fun i => beaconColumnFor rows (i + 1))

/-- The witness column-writing loop, counter values 1 .. 10. -/
def witnessColumns (rows : List WitnessRow) : List ColumnData :=
  (List.range witnessSchemaFields.length).map (fun i => witnessColumnFor rows (i + 1))

/-- The value vector belonging to a declared beacon schema field: the
association of each declared field name to the row field of the same name. -/
def beaconFieldColumn (rows : List BeaconRow) (name : String) : ColumnData :=
  if name = "poc_id" then ColumnData.bytes (rows.map BeaconRow.poc_id)
  else if name = "ingest_time" then ColumnData.i64 (rows.map BeaconRow.ingest_time)
  else if name = "beacon_location" then ColumnData.i64 (rows.map BeaconRow.beacon_location)
  else if name = "pub_key" then ColumnData.bytes (rows.map BeaconRow.pub_key)
  else if name = "frequency" then ColumnData.i64 (rows.map BeaconRow.frequency)
  else if name = "channel" then ColumnData.i32 (rows.map BeaconRow.channel)
  else if name = "tx_power" then ColumnData.i32 (rows.map BeaconRow.tx_power)
  else if name = "timestamp" then ColumnData.i64 (rows.map BeaconRow.timestamp)
  else if name = "tmst" then ColumnData.i32 (rows.map BeaconRow.tmst)
  else ColumnData.unmatched

/-- The value vector belonging to a declared witness schema field. -/
def witnessFieldColumn (rows : List WitnessRow) (name : String) : ColumnData :=
  if name = "poc_id" then ColumnData.bytes (rows.map WitnessRow.poc_id)
  else if name = "pub_key" then ColumnData.bytes (rows.map WitnessRow.pub_key)
  else if name = "ingest_time" then ColumnData.i64 (rows.map WitnessRow.ingest_time)
  else if name = "witness_location" then ColumnData.i64 (rows.map WitnessRow.witness_location)
  else if name = "timestamp" then ColumnData.i64 (rows.map WitnessRow.timestamp)
  else if name = "tmst" then ColumnData.i32 (rows.map WitnessRow.tmst)
  else if name = "signal" then ColumnData.i32 (rows.map WitnessRow.signal)
  else if name = "snr" then ColumnData.i32 (rows.map WitnessRow.snr)
  else if name = "frequency" then ColumnData.i64 (rows.map WitnessRow.frequency)
  else if name = "selected" then ColumnData.boolean (rows.map WitnessRow.selected)
  else ColumnData.unmatched

/-- The external file_store FileType, modelled minimally: the variants and
FromStr strings this handler can meet.  Unknown strings fail FromStr. -/
inductive FileType where
  | IotPoc
  | GatewayRewardShare
  | RadioRewardShare
deriving DecidableEq, Repr

/-- FromStr for the modelled FileType, matching the external crate's prefix
strings. -/
def FileType.fromStr (s : String) : Option FileType :=
  if s = "iot_poc" then some FileType.IotPoc
  else if s = "gateway_reward_share" then some FileType.GatewayRewardShare
  else if s = "radio_reward_share" then some FileType.RadioRewardShare
  else none

/-- Minimal serde_json Value for the event fields the handler reads: the key,
bucket and region are JSON string values on a real event, and Null when the
indexed path is absent. -/
inductive JsonVal where
  | null
  | str (s : String)
deriving DecidableEq, Repr

/-- serde_json string escaping for the characters that need it inside an S3
object key: a quote or backslash is backslash-escaped (the control-character
escapes JSON also performs cannot occur in S3 key names and are elided). -/
def jsonEscapeChar (c : Char) : List Char :=
  if c = '"' then ['\\', c]
  else if c = '\\' then ['\\', c]
  else [c]

/-- serde_json Value::to_string, the Display JSON rendering of an extracted
value: Null renders as the four characters null, and a string value is
rendered wrapped in literal quote characters with its content escaped.  The
handler extracts bucket, key and region with clone().to_string() rather than
as_str() (handler.rs lines 145-149), so these quote characters end up inside
its local variables. -/
def JsonVal.render : JsonVal → String
  | JsonVal.null => "null"
  | JsonVal.str s =>
    List.asString ('"' :: ((s.toList.map jsonEscapeChar).flatten ++ ['"']))

/-- The s3 bucket name, s3 object key and awsRegion JSON values carried by one
trigger-event record, before the to_string extraction. -/
structure S3Record where
  bucket : JsonVal
  key : JsonVal
  region : JsonVal
deriving DecidableEq, Repr

/-- The record obtained when the Records array exists but index 0 is absent:
serde_json indexing yields Null for every extracted field. -/
def nullS3Record : S3Record :=
  { bucket := JsonVal.null, key := JsonVal.null, region := JsonVal.null }

/-- Timestamp-stamp extraction, `key.split at dot, collect, index 1`
(handler.rs lines 166 and 206): Vec indexing past the end is a Rust panic. -/
def stampOf (key : String) : Except Failure String :=
  match (splitDot key).get? 1 with
  | some s => Except.ok s
  | none => Except.error (Failure.panicked ("index out of bounds"))

/-- What a handle_current invocation did. -/
inductive CurrentOutcome where
  | noop
  | convert (stamp : String)
deriving DecidableEq, Repr

/-- handle_current after the bucket/key/region extraction (handler.rs lines
143-189).  The key variable holds the JSON rendering of the key value
(clone().to_string()), quotes included; the prefix is its token before the
first dot, FromStr failure propagates as a typed error, a non-IotPoc type
falls through to Ok as a no-op, and the IotPoc branch extracts the stamp from
the same rendered key and runs the conversion-and-upload continuation,
abstracted here into the returned convert action. -/
def handleCurrentRecord (r : S3Record) : Except Failure CurrentOutcome :=
  let key := JsonVal.render r.key
  let tok := (splitDot key).head?.getD ("")
  match FileType.fromStr tok with
  | none => Except.error (Failure.typed ("unsupported file type"))
  | some ft =>
    if ft = FileType.IotPoc then
      match stampOf key with
      | Except.error e => Except.error e
      | Except.ok stamp => Except.ok (CurrentOutcome.convert stamp)
    else Except.ok CurrentOutcome.noop

/-- handle_current (handler.rs lines 127-190): a null Records array is a typed
error; otherwise only the record at index 0 is read. -/
def handleCurrent (records : Option (List S3Record)) : Except Failure CurrentOutcome :=
  match records with
  | none => Except.error (Failure.typed ("Event records are unexpectedly null."))
  | some rs => handleCurrentRecord (rs.headD nullS3Record)

/-- One per-file task of handle_history (handler.rs lines 205-229): the stamp
extraction runs first and can panic; the remaining per-file work (store get,
write_parquet, uploads, cleanup) is the I/O continuation `runRest`. -/
def historyTask (runRest : String → String → Except Failure Unit) (key : String) :
    Except Failure Unit :=
  match stampOf key with
  | Except.error e => Except.error e
  | Except.ok stamp => runRest key stamp

/-- Whether a task outcome is a Rust panic rather than a settled Result
value. -/
def isPanicResult : Except Failure Unit → Bool
  | Except.error (Failure.panicked _) => true
  | _ => false

/-- The buffer_unordered-and-collect step of handle_history (handler.rs lines
231-234) over the per-task outcomes.  A Result value, Ok or Err, is collected
into the results vector; a panic is not a Result — it unwinds through
collect, dropping (cancelling) the in-flight sibling futures, so the whole
run fails with that panic.  The pool's completion order is abstracted to list
order; the panic payload is preserved. -/
def collectTaskResults :
    List (Except Failure Unit) → Except Failure (List (Except Failure Unit))
  | [] => Except.ok []
  | r :: rest =>
    match r with
    | Except.error (Failure.panicked m) => Except.error (Failure.panicked m)
    | _ =>
      match collectTaskResults rest with
      | Except.error f => Except.error f
      | Except.ok rs => Except.ok (r :: rs)

/-- handle_history (handler.rs lines 192-237): one task per listed file key,
driven by buffer_unordered; the collected per-file Results are bound to
_results and discarded, after which the function returns Ok — unless some
task panicked, in which case the panic unwinds and handle_history never
returns success. -/
def handleHistory (keys : List String)
    (runRest : String → String → Except Failure Unit) : Except Failure Unit :=
  match collectTaskResults (keys.map (historyTask runRest)) with
  | Except.error f => Except.error f
  | Except.ok _ => Except.ok ()

/-- Filesystem outcome of the upload-then-cleanup tail shared by both paths. -/
structure UploadCleanupResult where
  returned : Except Failure Unit
  beaconDeleted : Bool
  witnessDeleted : Bool
deriving Repr

/-- The per-file tail (handler.rs lines 182-187 and 222-227 plus
cleanup_parquet_cache, lines 239-245): upload the beacon file, then the
witness file, each failure propagating immediately with the `?` operator;
only after both uploads succeed does cleanup delete the two local files. -/
def uploadAndCleanup (beaconUploadOk witnessUploadOk : Bool) : UploadCleanupResult :=
  if beaconUploadOk then
    if witnessUploadOk then
      { returned := Except.ok (), beaconDeleted := true, witnessDeleted := true }
    else
      { returned := Except.error (Failure.typed ("upload failed"))
        beaconDeleted := false, witnessDeleted := false }
  else
    { returned := Except.error (Failure.typed ("upload failed"))
      beaconDeleted := false, witnessDeleted := false }

/-- Specification companion (spec section 4.1): the witness row the spec
prescribes for one witness of a record, total over the optional nested report
so that it can be compared with the code's partial construction. -/
def specWitnessRow (pid : List Nat) (flag : Bool) (w : LoraVerifiedWitnessReportV1) :
    WitnessRow :=
  let rep := w.report.getD { pub_key := [], timestamp := 0, tmst := 0,
                             signal := 0, snr := 0, frequency := 0 }
  { poc_id := pid
    pub_key := rep.pub_key
    ingest_time := u64ToI64 w.received_timestamp
    witness_location := (parseI64 w.location).getD 0
    timestamp := u64ToI64 rep.timestamp
    tmst := u32ToI32 rep.tmst
    signal := rep.signal
    snr := rep.snr
    frequency := u64ToI64 rep.frequency
    selected := flag }

/-- Specification companion (spec sections 3 and 8): the witness-batch row
sequence prescribed over the message stream — per contributing record, its
selected witnesses in source order flagged true, then its unselected
witnesses in source order flagged false, all carrying the record's poc_id. -/
def specWitnessSeq : List (Except Failure LoraPocV1) → List WitnessRow
  | [] => []
  | Except.error _ :: rest => specWitnessSeq rest
  | Except.ok poc :: rest =>
    (if poc.selected_witnesses.isEmpty then []
     else poc.selected_witnesses.map (specWitnessRow poc.poc_id true)
          ++ poc.unselected_witnesses.map (specWitnessRow poc.poc_id false))
    ++ specWitnessSeq rest

/-- Demonstration witness whose textual location does not parse as a number. -/
def demoSelWitness : LoraVerifiedWitnessReportV1 :=
  { received_timestamp := 6, location := "abc",
    report := some { pub_key := [3], timestamp := 21, tmst := 8,
                     signal := -90, snr := 5, frequency := 11 } }

/-- Demonstration witness with a numeric location. -/
def demoUnselWitness : LoraVerifiedWitnessReportV1 :=
  { received_timestamp := 9, location := "44",
    report := some { pub_key := [4], timestamp := 22, tmst := 9,
                     signal := -80, snr := 6, frequency := 12 } }

/-- Demonstration record with one selected and one unselected witness. -/
def demoPoc : LoraPocV1 :=
  { poc_id := [1],
    beacon_report := some { received_timestamp := 5, location := "123",
                            report := some { pub_key := [2], frequency := 10, channel := 1,
                                             tx_power := 2, timestamp := 20, tmst := 7 } },
    selected_witnesses := [demoSelWitness],
    unselected_witnesses := [demoUnselWitness] }

/-- Beacon row produced from demoPoc. -/
def demoBeaconRow : BeaconRow :=
  { poc_id := [1], ingest_time := 5, beacon_location := 123, pub_key := [2],
    frequency := 10, channel := 1, tx_power := 2, timestamp := 20, tmst := 7 }

/-- Witness row produced from demoPoc's selected witness: the unparseable
location defaults to 0. -/
def demoSelRow : WitnessRow :=
  { poc_id := [1], pub_key := [3], ingest_time := 6, witness_location := 0,
    timestamp := 21, tmst := 8, signal := -90, snr := 5, frequency := 11,
    selected := true }

/-- Witness row produced from demoPoc's unselected witness. -/
def demoUnselRow : WitnessRow :=
  { poc_id := [1], pub_key := [4], ingest_time := 9, witness_location := 44,
    timestamp := 22, tmst := 9, signal := -80, snr := 6, frequency := 12,
    selected := false }

/-- Demonstration record with an empty selected-witness list but a non-empty
unselected list and an absent beacon report: the skip must fire before any
beacon access. -/
def demoPocEmptySel : LoraPocV1 :=
  { poc_id := [7], beacon_report := none,
    selected_witnesses := [],
    unselected_witnesses := [demoUnselWitness] }

/-- Demonstration record with a selected witness but an absent beacon report. -/
def demoPocNoBeacon : LoraPocV1 :=
  { poc_id := [8], beacon_report := none,
    selected_witnesses := [demoSelWitness],
    unselected_witnesses := [] }

/-- Demonstration trigger-event record whose key names the non-IotPoc type
gateway_reward_share. -/
def demoGwRecord : S3Record :=
  { bucket := JsonVal.str ("b"), key := JsonVal.str ("gateway_reward_share.123.gz"),
    region := JsonVal.str ("r") }

/-- Demonstration trigger-event record whose dotless key is the IotPoc
prefix itself. -/
def demoIotRecord : S3Record :=
  { bucket := JsonVal.str ("b"), key := JsonVal.str ("iot_poc"),
    region := JsonVal.str ("r") }

/-- Demonstration per-file I/O continuation: the file keyed a.1 fails its
upload with a typed error, every other file succeeds. -/
def demoRunRest : String → String → Except Failure Unit :=
  fun key _ =>
    if key = "a.1" then Except.error (Failure.typed ("upload failed"))
    else Except.ok ()

theorem isEmpty_false_of_ne_nil {α : Type} {l : List α} (h : l ≠ []) :
    l.isEmpty = false := by
  cases l with
  | nil => exact absurd rfl h
  | cons a t => rfl

theorem witnessRow_ok_spec (pid : List Nat) (flag : Bool)
    (w : LoraVerifiedWitnessReportV1) (r : WitnessRow)
    (h : witnessRow pid flag w = Except.ok r) :
    r = specWitnessRow pid flag w := by
  cases hrep : w.report with
  | none => simp [witnessRow, hrep] at h
  | some rep =>
    simp only [witnessRow, hrep] at h
    injection h with h2
    subst h2
    simp [specWitnessRow, hrep]

theorem witnessRows_ok_spec (pid : List Nat) (flag : Bool)
    (ws : List LoraVerifiedWitnessReportV1) (rs : List WitnessRow)
    (h : witnessRows pid flag ws = Except.ok rs) :
    rs = ws.map (specWitnessRow pid flag) := by
  induction ws generalizing rs with
  | nil =>
    simp only [witnessRows] at h
    injection h with h2
    subst h2
    rfl
  | cons w rest ih =>
    simp only [witnessRows] at h
    cases hw : witnessRow pid flag w with
    | error e => rw [hw] at h; exact absurd h (by simp)
    | ok r =>
      rw [hw] at h
      cases hr : witnessRows pid flag rest with
      | error e => rw [hr] at h; exact absurd h (by simp)
      | ok rs2 =>
        rw [hr] at h
        injection h with h2
        subst h2
        rw [witnessRow_ok_spec pid flag w r hw, ih rs2 hr]
        rfl

theorem witnessRows_ok_length (pid : List Nat) (flag : Bool)
    (ws : List LoraVerifiedWitnessReportV1) (rs : List WitnessRow)
    (h : witnessRows pid flag ws = Except.ok rs) :
    rs.length = ws.length := by
  rw [witnessRows_ok_spec pid flag ws rs h]
  simp

theorem processRecord_empty (poc : LoraPocV1) (h : poc.selected_witnesses = []) :
    processRecord poc = Except.ok none := by
  simp [processRecord, h]

theorem processRecord_ok_none (poc : LoraPocV1)
    (h : processRecord poc = Except.ok none) : poc.selected_witnesses = [] := by
  by_contra hne
  have he : poc.selected_witnesses.isEmpty = false := isEmpty_false_of_ne_nil hne
  simp only [processRecord, he, Bool.false_eq_true, if_false] at h
  split at h
  · exact absurd h (by simp)
  split at h
  · exact absurd h (by simp)
  split at h
  · exact absurd h (by simp)
  split at h
  · exact absurd h (by simp)
  split at h
  · exact absurd h (by simp)
  exact absurd h (by simp)

theorem processRecord_ok_some (poc : LoraPocV1) (b : BeaconRow) (ws : List WitnessRow)
    (h : processRecord poc = Except.ok (some (b, ws))) :
    poc.selected_witnesses ≠ [] ∧
    ∃ selRows unselRows,
      witnessRows poc.poc_id true poc.selected_witnesses = Except.ok selRows ∧
      witnessRows poc.poc_id false poc.unselected_witnesses = Except.ok unselRows ∧
      ws = selRows ++ unselRows := by
  by_cases hsel : poc.selected_witnesses = []
  · rw [processRecord_empty poc hsel] at h
    exact absurd h (by simp)
  have he : poc.selected_witnesses.isEmpty = false := isEmpty_false_of_ne_nil hsel
  refine ⟨hsel, ?_⟩
  cases hbr : poc.beacon_report with
  | none => simp [processRecord, he, hbr] at h
  | some br =>
  cases hploc : parseI64 br.location with
  | none => simp [processRecord, he, hbr, hploc] at h
  | some loc =>
  cases hrep : br.report with
  | none => simp [processRecord, he, hbr, hploc, hrep] at h
  | some rep =>
  cases hsRows : witnessRows poc.poc_id true poc.selected_witnesses with
  | error e => simp [processRecord, he, hbr, hploc, hrep, hsRows] at h
  | ok selRows =>
  cases huRows : witnessRows poc.poc_id false poc.unselected_witnesses with
  | error e => simp [processRecord, he, hbr, hploc, hrep, hsRows, huRows] at h
  | ok unselRows =>
  refine ⟨selRows, unselRows, rfl, rfl, ?_⟩
  simp only [processRecord, he, Bool.false_eq_true, if_false, hbr, hploc, hrep,
    hsRows, huRows] at h
  injection h with h2
  injection h2 with h3
  exact ((Prod.mk.injEq _ _ _ _).mp h3).2.symm

theorem splitDotChars_ne_nil (cs : List Char) : splitDotChars cs ≠ [] := by
  cases cs with
  | nil => simp [splitDotChars]
  | cons c rest =>
    simp only [splitDotChars]
    split
    · simp
    · split <;> simp

theorem asString_quote_ne (t : List Char) (s : String)
    (hs : s.toList.head? ≠ some '"') : List.asString ('"' :: t) ≠ s := by
  intro h
  apply hs
  rw [← h]
  rfl

theorem fromStr_quoted (t : List Char) :
    FileType.fromStr (List.asString ('"' :: t)) = none := by
  simp [FileType.fromStr,
    asString_quote_ne t ("iot_poc") (by decide),
    asString_quote_ne t ("gateway_reward_share") (by decide),
    asString_quote_ne t ("radio_reward_share") (by decide)]

theorem render_str_first_token (s : String) :
    ∃ t ts, splitDot (JsonVal.render (JsonVal.str s)) = List.asString ('"' :: t) :: ts := by
  cases hsp : splitDotChars ((s.toList.map jsonEscapeChar).flatten ++ ['"']) with
  | nil => exact absurd hsp (splitDotChars_ne_nil _)
  | cons t ts =>
    refine ⟨t, ts.map List.asString, ?_⟩
    show (splitDotChars ('"' :: ((s.toList.map jsonEscapeChar).flatten ++ ['"']))).map
      List.asString = _
    rw [splitDotChars, if_neg (by decide), hsp]
    rfl

theorem handleCurrentRecord_always_errors (r : S3Record) :
    handleCurrentRecord r = Except.error (Failure.typed ("unsupported file type")) := by
  cases hk : r.key with
  | null =>
    simp only [handleCurrentRecord, hk]
    rfl
  | str s =>
    obtain ⟨t, ts, hsp⟩ := render_str_first_token s
    simp only [handleCurrentRecord, hk, hsp, List.head?_cons, Option.getD_some,
      fromStr_quoted]

theorem collectTaskResults_no_panic (rs : List (Except Failure Unit))
    (h : ∀ r, r ∈ rs → isPanicResult r = false) :
    collectTaskResults rs = Except.ok rs := by
  induction rs with
  | nil => rfl
  | cons r rest ih =>
    have hr := h r (by simp)
    have hrest := ih (fun x hx => h x (by simp [hx]))
    cases r with
    | ok u => simp [collectTaskResults, hrest]
    | error f =>
      cases f with
      | panicked m => simp [isPanicResult] at hr
      | typed m => simp [collectTaskResults, hrest]

/-- C1: a record whose selected-witness list is empty contributes no rows to
either batch — removing it from the stream leaves both batches unchanged,
whatever its unselected-witness list (and even its beacon report) holds. -/
theorem empty_selected_record_contributes_no_rows
    (pre post : List (Except Failure LoraPocV1)) (poc : LoraPocV1)
    (hsel : poc.selected_witnesses = []) :
    buildBatches (pre ++ Except.ok poc :: post) = buildBatches (pre ++ post) := by
  induction pre with
  | nil =>
    simp only [List.nil_append]
    simp [buildBatches, processRecord_empty poc hsel]
  | cons m pre ih =>
    cases m with
    | error e => simp [buildBatches]
    | ok poc2 =>
      simp only [List.cons_append, buildBatches, List.append_eq]
      rw [ih]

/-- Witness for C1: a concrete record with no selected witnesses, one
unselected witness and an absent beacon report is skipped whole. -/
theorem empty_selected_record_contributes_no_rows_witness :
    buildBatches ([] ++ Except.ok demoPocEmptySel :: []) = buildBatches ([] ++ []) :=
  empty_selected_record_contributes_no_rows [] [] demoPocEmptySel rfl

/-- C2: a record with a non-empty selected-witness list whose processing
succeeds contributes exactly one beacon row and exactly
selected-plus-unselected many witness rows. -/
theorem contributing_record_counts
    (poc : LoraPocV1) (rest : List (Except Failure LoraPocV1))
    (B : List BeaconRow) (W : List WitnessRow)
    (hsel : poc.selected_witnesses ≠ [])
    (h : buildBatches (Except.ok poc :: rest) = Except.ok (B, W)) :
    ∃ b ws B2 W2,
      buildBatches rest = Except.ok (B2, W2) ∧ B = b :: B2 ∧ W = ws ++ W2 ∧
      ws.length = poc.selected_witnesses.length + poc.unselected_witnesses.length := by
  cases hp : processRecord poc with
  | error e => simp [buildBatches, hp] at h
  | ok o =>
    cases o with
    | none => exact absurd (processRecord_ok_none poc hp) hsel
    | some bw =>
      obtain ⟨b, ws⟩ := bw
      cases hr : buildBatches rest with
      | error e => simp [buildBatches, hp, hr] at h
      | ok BW =>
        obtain ⟨B2, W2⟩ := BW
        simp only [buildBatches, hp, hr] at h
        injection h with h2
        have hpair := (Prod.mk.injEq _ _ _ _).mp h2
        obtain ⟨-, selRows, unselRows, hsR, huR, hws⟩ := processRecord_ok_some poc b ws hp
        refine ⟨b, ws, B2, W2, rfl, hpair.1.symm, hpair.2.symm, ?_⟩
        rw [hws, List.length_append, witnessRows_ok_length _ _ _ _ hsR,
          witnessRows_ok_length _ _ _ _ huR]

/-- Witness for C2 at a concrete one-record stream with one selected and one
unselected witness. -/
theorem contributing_record_counts_witness :
    ∃ b ws B2 W2,
      buildBatches ([] : List (Except Failure LoraPocV1)) = Except.ok (B2, W2) ∧
      [demoBeaconRow] = b :: B2 ∧ [demoSelRow, demoUnselRow] = ws ++ W2 ∧
      ws.length = demoPoc.selected_witnesses.length + demoPoc.unselected_witnesses.length :=
  contributing_record_counts demoPoc [] [demoBeaconRow] [demoSelRow, demoUnselRow]
    (by decide) (by decide)

/-- C3: the witness batch of a successful file is, over messages in stream
order, the concatenation per contributing record of its selected witnesses in
source order flagged true followed by its unselected witnesses in source
order flagged false, every row carrying the record's poc_id — exactly the
prescribed sequence specWitnessSeq. -/
theorem witness_batch_sequence (msgs : List (Except Failure LoraPocV1))
    (B : List BeaconRow) (W : List WitnessRow)
    (h : buildBatches msgs = Except.ok (B, W)) :
    W = specWitnessSeq msgs := by
  induction msgs generalizing B W with
  | nil =>
    simp only [buildBatches] at h
    injection h with h2
    have hW := ((Prod.mk.injEq _ _ _ _).mp h2).2
    simp [specWitnessSeq, ← hW]
  | cons m rest ih =>
    cases m with
    | error e => simp [buildBatches] at h
    | ok poc =>
      cases hp : processRecord poc with
      | error e => simp [buildBatches, hp] at h
      | ok o =>
        cases o with
        | none =>
          have hsel := processRecord_ok_none poc hp
          have hW := ih B W (by simpa [buildBatches, hp] using h)
          simp [specWitnessSeq, hsel, hW]
        | some bw =>
          obtain ⟨b, ws⟩ := bw
          cases hr : buildBatches rest with
          | error e => simp [buildBatches, hp, hr] at h
          | ok BW =>
            obtain ⟨B2, W2⟩ := BW
            simp only [buildBatches, hp, hr] at h
            injection h with h2
            have hpair := (Prod.mk.injEq _ _ _ _).mp h2
            obtain ⟨hne, selRows, unselRows, hsR, huR, hws⟩ :=
              processRecord_ok_some poc b ws hp
            have hW2 := ih B2 W2 hr
            rw [← hpair.2, hws, witnessRows_ok_spec _ _ _ _ hsR,
              witnessRows_ok_spec _ _ _ _ huR, hW2]
            simp [specWitnessSeq, isEmpty_false_of_ne_nil hne, List.append_assoc]

/-- Witness for C3 at a concrete one-record stream. -/
theorem witness_batch_sequence_witness :
    [demoSelRow, demoUnselRow] = specWitnessSeq [Except.ok demoPoc] :=
  witness_batch_sequence [Except.ok demoPoc] [demoBeaconRow]
    [demoSelRow, demoUnselRow] (by decide)

/-- C4 evaluation at the failing input: a record with a selected witness but
an absent beacon report makes write_parquet panic on Option::unwrap; the
claimed typed MissingRequiredField error is not what the code does. -/
theorem absent_beacon_report_panics :
    processRecord demoPocNoBeacon =
      Except.error (Failure.panicked ("called Option::unwrap on a None value")) := by
  decide

/-- C6 counterexample: two listed files, the first with a dotless key — its
task panics at the stamp indexing and the whole historical run crashes with
that panic instead of processing the sibling and returning success, refuting
the claim at this concrete input. -/
theorem history_panic_crashes_run :
    handleHistory (["iot_poc", "iot_poc.123.gz"]) (fun _ _ => Except.ok ()) =
      Except.error (Failure.panicked ("index out of bounds")) := by
  decide

/-- C6 amended: when no per-file task panics, a per-file failure (a typed
Result error) neither aborts nor perturbs the processing of the other listed
files — every task settles to its own result, and handle_history discards
the collected results and returns success.  A task that panics instead
unwinds through buffer_unordered and the run never returns success. -/
theorem history_failure_policy_amended
    (runRest : String → String → Except Failure Unit) (keys : List String)
    (hnp : ∀ key, key ∈ keys → isPanicResult (historyTask runRest key) = false) :
    collectTaskResults (keys.map (historyTask runRest)) =
      Except.ok (keys.map (historyTask runRest)) ∧
    handleHistory keys runRest = Except.ok () := by
  have hmem : ∀ r, r ∈ keys.map (historyTask runRest) → isPanicResult r = false := by
    intro r hr
    obtain ⟨key, hkey, hre⟩ := List.mem_map.mp hr
    rw [← hre]
    exact hnp key hkey
  have hcol := collectTaskResults_no_panic _ hmem
  exact ⟨hcol, by simp [handleHistory, hcol]⟩

/-- Witness for the amended C6: two files, the first failing its upload with
a typed error, the second succeeding — both settle and the run returns Ok. -/
theorem history_failure_policy_amended_witness :
    collectTaskResults ((["a.1", "b.2"]).map (historyTask demoRunRest)) =
      Except.ok ((["a.1", "b.2"]).map (historyTask demoRunRest)) ∧
    handleHistory (["a.1", "b.2"]) demoRunRest = Except.ok () :=
  history_failure_policy_amended demoRunRest (["a.1", "b.2"]) (by decide)

/-- C7 counterexample: with the beacon upload succeeding and the witness
upload failing, the beacon artifact's own upload succeeded and yet its local
file is not deleted, refuting the claim at this concrete input. -/
theorem upload_cleanup_counterexample :
    ¬ ((uploadAndCleanup true false).beaconDeleted = true) := by
  decide

/-- C7 amended: a local file is deleted exactly when both uploads succeed; a
failed upload returns an error and leaves both files in place, including the
file whose own upload succeeded. -/
theorem upload_cleanup_amended (b w : Bool) :
    (uploadAndCleanup b w).beaconDeleted = (b && w) ∧
    (uploadAndCleanup b w).witnessDeleted = (b && w) ∧
    (uploadAndCleanup b w).returned =
      (if b && w then Except.ok ()
       else Except.error (Failure.typed ("upload failed"))) := by
  cases b <;> cases w <;> exact ⟨rfl, rfl, rfl⟩

/-- C8 counterexample: an event whose key names the non-IotPoc type
gateway_reward_share is not a successful no-op — the JSON-rendered key is
quoted, FromStr fails, and handle_current returns an error. -/
theorem trigger_no_op_counterexample :
    handleCurrent (some [demoGwRecord]) ≠ Except.ok CurrentOutcome.noop := by
  decide

/-- C8 amended: a null Records array is an error and only the first record is
read, the tail never changing the outcome; but because the key is extracted
with Value::to_string, a string key arrives wrapped in quote characters, so
its first dot-token never matches any known file type: FromStr fails and
handle_current returns a typed error for every event — the non-IotPoc no-op
branch (and the IotPoc conversion branch) are unreachable. -/
theorem trigger_always_errors (r : S3Record) (rest restAlt : List S3Record) :
    handleCurrent none =
      Except.error (Failure.typed ("Event records are unexpectedly null.")) ∧
    handleCurrent (some (r :: rest)) = handleCurrent (some (r :: restAlt)) ∧
    handleCurrent (some (r :: rest)) =
      Except.error (Failure.typed ("unsupported file type")) :=
  ⟨rfl, rfl, handleCurrentRecord_always_errors r⟩

/-- C9: both column loops emit the value vectors in declared schema order,
each column fed the vector belonging to its declared field. -/
theorem columns_in_declared_order (brows : List BeaconRow) (wrows : List WitnessRow) :
    beaconColumns brows = beaconSchemaFields.map (beaconFieldColumn brows) ∧
    witnessColumns wrows = witnessSchemaFields.map (witnessFieldColumn wrows) :=
  ⟨rfl, rfl⟩

/-- C10 counterexample: the dotless key iot_poc in the trigger path does not
reach the stamp indexing — the quoted rendered key fails FromStr first and
handle_current returns a typed error, not the claimed out-of-bounds panic. -/
theorem trigger_short_key_counterexample :
    handleCurrent (some [demoIotRecord]) ≠
      Except.error (Failure.panicked ("index out of bounds")) := by
  decide

/-- C10 amended: a key without a second dot-token panics the stamp extraction
with an out-of-bounds index in the historical per-file task; in the trigger
path the stamp extraction is never reached — the quoted rendered key fails
FromStr first and handle_current returns a typed error instead. -/
theorem short_key_stamp_panics_amended (key : String)
    (runRest : String → String → Except Failure Unit)
    (r : S3Record) (rest : List S3Record)
    (hlen : (splitDot key).length < 2) (_hkey : r.key = JsonVal.str key) :
    historyTask runRest key = Except.error (Failure.panicked ("index out of bounds")) ∧
    handleCurrent (some (r :: rest)) =
      Except.error (Failure.typed ("unsupported file type")) := by
  have hstamp : stampOf key = Except.error (Failure.panicked ("index out of bounds")) := by
    unfold stampOf
    rw [List.get?_eq_none.mpr (by omega)]
  exact ⟨by simp [historyTask, hstamp], handleCurrentRecord_always_errors r⟩

/-- Witness for the amended C10 at the concrete dotless key iot_poc. -/
theorem short_key_stamp_panics_amended_witness :
    historyTask (fun _ _ => Except.ok ()) ("iot_poc") =
      Except.error (Failure.panicked ("index out of bounds")) ∧
    handleCurrent (some (demoIotRecord :: [])) =
      Except.error (Failure.typed ("unsupported file type")) :=
  short_key_stamp_panics_amended ("iot_poc") (fun _ _ => Except.ok ()) demoIotRecord []
    (by decide) (by decide)

end OracleObserver
